import Mathlib

/-
Verification of the geometric allocation pipeline in src/app.py (a Flask app
computing buffered Voronoi allocations).  The embedding translates the four
pipeline functions of the source — calculate_circle_radius, process_features,
generate_voronoi_polygons, create_output_geojson — together with the feature
check of the process_geojson route.  Geometry produced by the shapely library
is kept either exact (Voronoi cell containment, evaluated in rational
arithmetic) or symbolic (buffers and intersections, whose validity and
emptiness tests are parameters of the pipeline, as the library is a black
box to the source).  The attribute lookup voronoi_regions.crs of line 106
has no denotation in shapely — geometries carry no crs attribute — and is
modelled as the unconditional AttributeError it raises, which makes every
statement after it in create_output_geojson dead code, in the program as in
the model.
-/

namespace VoronoiApp

/-- Planar point with rational coordinates, the exact counterpart of the
projected shapely points the source manipulates. -/
abbrev Pt : Type := ℚ × ℚ

/-- Squared euclidean distance between two planar points.  Working with the
square keeps every Voronoi comparison inside the rationals. -/
def sqDist (p q : Pt) : ℚ :=
  (p.1 - q.1) * (p.1 - q.1) + (p.2 - q.2) * (p.2 - q.2)

/-- An input feature: a Point geometry in geographic degrees (lines 67 and 76
of the source read feature geometries as points) together with the opaque
properties bag, kept as a type parameter because the pipeline never inspects
it beyond the est_area lookup, which is abstracted into the context below. -/
structure Feature (α : Type) where
  lon : ℚ
  lat : ℚ
  props : α
deriving DecidableEq

/-- The point geometry of a feature. -/
def feature_pt {α : Type} (f : Feature α) : Pt := (f.lon, f.lat)

/-- A Voronoi cell as produced by the tessellation model: the closed region
of the plane at least as close to the field site as to every member of
sites.  The record keeps the generating site and the full distinct site list
so that containment is an exact rational test. -/
structure VCell where
  site : Pt
  sites : List Pt
deriving DecidableEq

/-- Symbolic geometry values flowing through the pipeline: a buffer circle
recorded by its centre and hectare figure (its radius is
calculate_circle_radius applied to that figure, line 78 of the source), a
Voronoi cell, and the intersection of two geometries (line 116). -/
inductive Geom : Type where
  | buffer (center : Pt) (ha : ℚ)
  | vcell (c : VCell)
  | inter (a b : Geom)
deriving DecidableEq

/-- Failure modes of a request.  The first three are what the source
actually produces: the 400 responses returned by the route handler, an
unhandled Python TypeError (a complex buffer radius fed to shapely, or the
integer sentinel 0 fed to intersection), and the unhandled AttributeError
of line 106 (voronoi_regions.crs does not exist on a shapely geometry).
The last three constructors are the error taxonomy of the specification;
the translated code never constructs them, which several claims below turn
on. -/
inductive PyErr : Type where
  | badRequest (msg : String)
  | typeError
  | attributeError
  | invalidAreaError
  | assignmentError
  | degenerateInputError
deriving DecidableEq

/-- Result of a request: an error or a value. -/
inductive Res (α : Type) : Type where
  | error (e : PyErr)
  | ok (v : α)
deriving DecidableEq

/-- Assignment state of one point after the scan of lines 108 to 112: the
source initialises the per point slot with the integer 0 (a sentinel, not a
geometry) and overwrites it with every region that intersects the point. -/
inductive Assigned (ρ : Type) : Type where
  | sentinel
  | cell (r : ρ)
deriving DecidableEq

/-- An output feature: the reprojected region geometry and the properties
bag copied from the input feature (lines 119 to 123). -/
structure OutFeature (α : Type) where
  geometry : Geom
  props : α
deriving DecidableEq

/-- The output FeatureCollection (lines 125 to 128). -/
structure FeatureColl (α : Type) where
  features : List (OutFeature α)
deriving DecidableEq

/-- Library context of one request.  toLocal is the forward transform of the
tangent plane projection built at lines 69 to 71 (a pyproj black box);
isValid and isEmpty are the shapely validity and emptiness tests of line
117; estArea is the lookup feature properties get est_area default 0 of
line 77. -/
structure GeoCtx (α : Type) where
  toLocal : Pt → Pt
  isValid : Geom → Bool
  isEmpty : Geom → Bool
  estArea : α → ℚ

/-- Constant of line 13 of the source: the envelope expansion in meters. -/
def BUFFER_ENVELOPE_SIZE : ℚ := 5000

/-- Constant of line 14 of the source: the additional radius in meters. -/
def ADDITIONAL_RADIUS : ℚ := 5

/-- Lines 18 to 28 of the source: the radius estimator, for the domain on
which the Python expression stays inside the real numbers.  The source
computes (ha * 10000 / 3.1415) ** 0.5 + additional_radius; note the literal
3.1415 standing in for pi.  For negative ha the Python power operator
returns a complex number instead; that branch is modelled in the pipeline
below, where the buffer call rejects the non real radius. -/
noncomputable def calculate_circle_radius (ha extra : ℝ) : ℝ :=
  Real.sqrt (ha * 10000 / 3.1415) + extra

/-- Exact containment of a point in a closed Voronoi cell: the point is at
least as close to the cell site as to every site of the tessellation.  This
is the semantic value of the shapely intersects test of line 111 for a point
against a closed cell polygon (intersects includes the boundary). -/
def vContains (c : VCell) (p : Pt) : Bool :=
  c.sites.all (fun t => decide (sqDist p c.site ≤ sqDist p t))

/-- The point intersects region call of line 111, argument order as in the
source. -/
def pIntersects (p : Pt) (c : VCell) : Bool := vContains c p

/-- The distinct members of a site list, in a fixed order (each site kept at
its last occurrence).  GEOS collapses exactly coincident input points before
tessellating, and leaves the cell order unspecified; no result below depends
on the order chosen here. -/
def distinctSites : List Pt → List Pt
  | [] => []
  | p :: rest =>
    if p ∈ distinctSites rest then distinctSites rest else p :: distinctSites rest

/-- Model of shapely voronoi_polygons at line 94: one closed cell per
distinct site; a diagram of fewer than two distinct sites is the empty
collection, as the shapely documentation records for a single point input.
The envelope of line 93 (bounding box expanded by BUFFER_ENVELOPE_SIZE) only
clips outer cell extents and is immaterial to every containment test the
program performs, all of which query a site. -/
def voronoi_polygons (pts : List Pt) : List VCell :=
  if (distinctSites pts).length < 2 then []
  else (distinctSites pts).map (fun s => { site := s, sites := distinctSites pts })

/-- Lines 85 to 94 of the source: the envelope construction feeds only into
voronoi_polygons, and the multipoint argument of the source function is
unused by its body, so the model takes the transformed points alone. -/
def generate_voronoi_polygons (transformed_points : List Pt) : List VCell :=
  voronoi_polygons transformed_points

/-- One iteration of the loop of lines 75 to 81.  Python first evaluates
calculate_circle_radius on est_area; for a negative est_area the
exponentiation of a negative float returns a complex number, which the
shapely buffer call then rejects by raising TypeError, aborting the request.
For a nonnegative area the buffer polygon is kept symbolically, recording
its centre and hectare figure. -/
def process_one {α : Type} (ctx : GeoCtx α) (f : Feature α) : Res (Pt × Geom) :=
  let ha := ctx.estArea f.props
  if ha < 0 then Res.error PyErr.typeError
  else
    let tp := ctx.toLocal (feature_pt f)
    Res.ok (tp, Geom.buffer tp ha)

/-- Lines 60 to 83 of the source: transform every feature point into the
local frame and buffer it by its estimated radius.  The multipoint and its
centroid only parameterise the projection, which the context carries, so
the returned pair holds the transformed and the buffered points. -/
def process_features {α : Type} (ctx : GeoCtx α) :
    List (Feature α) → Res (List Pt × List Geom)
  | [] => Res.ok ([], [])
  | f :: rest =>
    match process_one ctx f with
    | Res.error e => Res.error e
    | Res.ok (tp, bp) =>
      match process_features ctx rest with
      | Res.error e => Res.error e
      | Res.ok (tps, bps) => Res.ok (tp :: tps, bp :: bps)

/-- The inner scan of lines 110 to 112 for one point: start from the integer
sentinel and overwrite with every region the point intersects.  The
containment test is a parameter, exactly as the source delegates it to the
shapely black box. -/
def assign_one {π ρ : Type} (intersects : π → ρ → Bool) (p : π) (regions : List ρ) :
    Assigned ρ :=
  regions.foldl (fun acc r => if intersects p r then Assigned.cell r else acc)
    Assigned.sentinel

/-- Reference form of the scan: the last region of the iteration order that
matches, and the sentinel when none does. -/
def assign_one_last {π ρ : Type} (intersects : π → ρ → Bool) (p : π)
    (regions : List ρ) : Assigned ρ :=
  match (regions.filter (fun r => intersects p r)).getLast? with
  | some r => Assigned.cell r
  | none => Assigned.sentinel

/-- Modelled from the spec: the Cell Assigner of section 4.4, whose policy is
first match wins under cell iteration order.  Stated only for comparison with
the implemented scan assign_one. -/
def assign_one_spec {π ρ : Type} (intersects : π → ρ → Bool) (p : π)
    (regions : List ρ) : Assigned ρ :=
  match regions.find? (fun r => intersects p r) with
  | some r => Assigned.cell r
  | none => Assigned.sentinel

/-- Lines 108 to 112 of the source: the per point assignment list. -/
def assign_cells (transformed_points : List Pt) (voronoi_regions : List VCell) :
    List (Assigned VCell) :=
  transformed_points.map (fun p => assign_one pIntersects p voronoi_regions)

/-- Whether the shapely validity test of line 117 lets a region through:
is_valid and not is_empty. -/
def valid_nonempty {α : Type} (ctx : GeoCtx α) (g : Geom) : Bool :=
  ctx.isValid g && !ctx.isEmpty g

/-- Line 106 of the source: the reprojection transformer is built from the
crs attribute of voronoi_regions.  A shapely GeometryCollection defines no
crs attribute, so this lookup raises AttributeError unconditionally, before
the assignment scan of lines 108 to 112 runs; every request that reaches
create_output_geojson aborts here.  The ok branch of the result type exists
only so that the loop the source writes below this line can still be
translated; it is never taken. -/
def to_wgs84_transform (voronoi_regions : List VCell) : Res (Geom → Geom) :=
  Res.error PyErr.attributeError

/-- One iteration of the output loop of lines 115 to 123.  When the
assignment slot still holds the integer sentinel, line 116 calls
intersection with the integer 0, which shapely rejects by raising TypeError,
aborting the whole request.  Otherwise the intersection is formed, filtered
by the validity test, reprojected through the transformer of line 106 and
paired with the verbatim properties bag of the input feature. -/
def compose_one {α : Type} (ctx : GeoCtx α) (to_wgs84 : Geom → Geom) (a : Assigned VCell)
    (bp : Geom) (f : Feature α) : Res (Option (OutFeature α)) :=
  match a with
  | Assigned.sentinel => Res.error PyErr.typeError
  | Assigned.cell c =>
    let ir := Geom.inter bp (Geom.vcell c)
    if valid_nonempty ctx ir then
      Res.ok (some { geometry := to_wgs84 ir, props := f.props })
    else Res.ok none

/-- The output loop of lines 114 to 123 over the zipped assignment, buffer
and feature lists. -/
def compose_all {α : Type} (ctx : GeoCtx α) (to_wgs84 : Geom → Geom) :
    List (Assigned VCell × Geom × Feature α) → Res (List (OutFeature α))
  | [] => Res.ok []
  | t :: rest =>
    match compose_one ctx to_wgs84 t.1 t.2.1 t.2.2 with
    | Res.error e => Res.error e
    | Res.ok o =>
      match compose_all ctx to_wgs84 rest with
      | Res.error e => Res.error e
      | Res.ok tail =>
        Res.ok (match o with | some g => g :: tail | none => tail)

/-- Lines 96 to 128 of the source.  The first statement, line 106, raises
AttributeError unconditionally (see to_wgs84_transform), so the assignment
scan and the output loop below it — translated faithfully here — are dead
code, in the program as in this model: the function returns that error on
every call. -/
def create_output_geojson {α : Type} (ctx : GeoCtx α) (features : List (Feature α))
    (transformed_points : List Pt) (buffered_points : List Geom)
    (voronoi_regions : List VCell) : Res (FeatureColl α) :=
  match to_wgs84_transform voronoi_regions with
  | Res.error e => Res.error e
  | Res.ok to_wgs84 =>
    let assigned := assign_cells transformed_points voronoi_regions
    match compose_all ctx to_wgs84 (assigned.zip (buffered_points.zip features)) with
    | Res.error e => Res.error e
    | Res.ok outs => Res.ok { features := outs }

/-- Lines 50 to 56 of the source: the request pipeline past JSON parsing.
An empty feature list is rejected with the 400 response of line 52; then the
three pipeline stages run in order. -/
def process_geojson {α : Type} (ctx : GeoCtx α) (features : List (Feature α)) :
    Res (FeatureColl α) :=
  if features.isEmpty then
    Res.error (PyErr.badRequest "No features found in the GeoJSON file")
  else
    match process_features ctx features with
    | Res.error e => Res.error e
    | Res.ok (tps, bps) =>
      create_output_geojson ctx features tps bps (generate_voronoi_polygons tps)

/-- The transformed point of one feature. -/
def tpoint {α : Type} (ctx : GeoCtx α) (f : Feature α) : Pt :=
  ctx.toLocal (feature_pt f)

/-- The buffered point of one feature. -/
def bgeom {α : Type} (ctx : GeoCtx α) (f : Feature α) : Geom :=
  Geom.buffer (tpoint ctx f) (ctx.estArea f.props)

/-- Concrete context used by the evaluation theorems below: the properties
bag of a feature is its hectare figure itself, the projection is the
identity, and every intersection is reported valid and nonempty. -/
def ctxW : GeoCtx ℚ :=
  { toLocal := fun p => p
    isValid := fun _ => true
    isEmpty := fun _ => false
    estArea := fun a => a }

/-- Concrete well formed two point input used by the evaluation theorems
below. -/
def fsW : List (Feature ℚ) := [{ lon := 0, lat := 0, props := 0 }, { lon := 2, lat := 0, props := 0 }]

/-- The overwrite scan of the source keeps the last match: folding the
overwrite step over any region list yields the last matching region, and the
initial value when none matches. -/
theorem foldl_assign_eq {π ρ : Type} (pred : π → ρ → Bool) (p : π) (regions : List ρ)
    (init : Assigned ρ) :
    regions.foldl (fun acc r => if pred p r then Assigned.cell r else acc) init
      = (match (regions.filter (fun r => pred p r)).getLast? with
         | some r => Assigned.cell r
         | none => init) := by
  induction regions using List.reverseRecOn generalizing init with
  | nil => simp
  | append_singleton l r ih =>
    rw [List.foldl_append, List.filter_append, List.filter_singleton]
    by_cases hp : pred p r = true
    · simp [hp, List.getLast?_concat]
    · simp only [List.foldl_cons, List.foldl_nil, hp, Bool.false_eq_true, if_false,
        Bool.cond_false, List.append_nil]
      exact ih init

/-- The implemented scan equals its last match characterisation. -/
theorem assign_one_eq_last {π ρ : Type} (pred : π → ρ → Bool) (p : π) (regions : List ρ) :
    assign_one pred p regions = assign_one_last pred p regions := by
  unfold assign_one assign_one_last
  exact foldl_assign_eq pred p regions Assigned.sentinel

/-- When some region matches, the scan does not keep the sentinel. -/
theorem assign_one_ne_sentinel {π ρ : Type} (pred : π → ρ → Bool) (p : π)
    (regions : List ρ) (r0 : ρ) (hm : r0 ∈ regions) (hp : pred p r0 = true) :
    assign_one pred p regions ≠ Assigned.sentinel := by
  rw [assign_one_eq_last]
  unfold assign_one_last
  have hne : regions.filter (fun r => pred p r) ≠ [] :=
    List.ne_nil_of_mem (List.mem_filter.mpr ⟨hm, hp⟩)
  cases hlast : (regions.filter (fun r => pred p r)).getLast? with
  | none => exact absurd (List.getLast?_eq_none_iff.mp hlast) hne
  | some r => simp

/-- Membership in the distinct site list is membership in the site list. -/
theorem mem_distinctSites (a : Pt) (l : List Pt) : a ∈ distinctSites l ↔ a ∈ l := by
  induction l with
  | nil => simp [distinctSites]
  | cons p t ih =>
    unfold distinctSites
    by_cases hp : p ∈ distinctSites t
    · rw [if_pos hp]
      constructor
      · intro ha; exact List.mem_cons_of_mem p (ih.mp ha)
      · intro ha
        rcases List.mem_cons.mp ha with h | h
        · rw [h]; exact hp
        · exact ih.mpr h
    · rw [if_neg hp]
      simp [ih]

/-- A cell contains its own site: the squared distance to the site is zero
and squared distances are nonnegative. -/
theorem vContains_own (s : Pt) (l : List Pt) :
    vContains { site := s, sites := l } s = true := by
  unfold vContains
  rw [List.all_eq_true]
  intro t _
  have h0 : sqDist s s = 0 := by simp [sqDist]
  have hn : 0 ≤ sqDist s t :=
    add_nonneg (mul_self_nonneg _) (mul_self_nonneg _)
  simp only [h0]
  exact decide_eq_true hn

/-- A feature list containing a negative hectare figure makes
process_features abort with the TypeError of the rejected buffer radius. -/
theorem process_features_neg {α : Type} (ctx : GeoCtx α) (fs : List (Feature α))
    (h : ∃ f ∈ fs, ctx.estArea f.props < 0) :
    process_features ctx fs = Res.error PyErr.typeError := by
  induction fs with
  | nil => simp at h
  | cons f t ih =>
    by_cases hf : ctx.estArea f.props < 0
    · simp [process_features, process_one, hf]
    · have ht : ∃ g ∈ t, ctx.estArea g.props < 0 := by
        rcases h with ⟨g, hg, hneg⟩
        rcases List.mem_cons.mp hg with rfl | hgt
        · exact absurd hneg hf
        · exact ⟨g, hgt, hneg⟩
      simp [process_features, process_one, hf, ih ht]

/-- A feature list with only nonnegative hectare figures makes
process_features return the transformed and buffered points in order. -/
theorem process_features_pos {α : Type} (ctx : GeoCtx α) (fs : List (Feature α))
    (h : ∀ f ∈ fs, 0 ≤ ctx.estArea f.props) :
    process_features ctx fs = Res.ok (fs.map (tpoint ctx), fs.map (bgeom ctx)) := by
  induction fs with
  | nil => simp [process_features]
  | cons f t ih =>
    have hf : ¬ ctx.estArea f.props < 0 :=
      not_lt.mpr (h f (List.mem_cons_self f t))
    have ht := ih (fun g hg => h g (List.mem_cons_of_mem f hg))
    simp [process_features, process_one, hf, ht, tpoint, bgeom]

/-- A request containing a negative hectare figure aborts with the TypeError
of the rejected buffer radius before any output is formed. -/
theorem process_geojson_neg {α : Type} (ctx : GeoCtx α) (fs : List (Feature α))
    (h : ∃ f ∈ fs, ctx.estArea f.props < 0) :
    process_geojson ctx fs = Res.error PyErr.typeError := by
  rcases h with ⟨f, hf, hneg⟩
  have hne : fs ≠ [] := List.ne_nil_of_mem hf
  have h6 := process_features_neg ctx fs ⟨f, hf, hneg⟩
  unfold process_geojson
  rw [if_neg (by simp [hne]), h6]

/-- Every nonempty request whose areas are all nonnegative survives
process_features and then aborts at line 106: the crs attribute lookup
raises AttributeError before any assignment or output is computed, so the
program never returns a FeatureCollection on any input. -/
theorem process_geojson_crs {α : Type} (ctx : GeoCtx α) (fs : List (Feature α))
    (h1 : fs ≠ []) (hpos : ∀ f ∈ fs, 0 ≤ ctx.estArea f.props) :
    process_geojson ctx fs = Res.error PyErr.attributeError := by
  have hpf := process_features_pos ctx fs hpos
  unfold process_geojson
  rw [if_neg (by simp [h1]), hpf]
  rfl

/-- C1 (amended): the scan of lines 108 to 112 overwrites without break, so a
point lying in several cells is assigned the LAST matching cell under cell
iteration order, not the first; and a generator site of a tessellation with
at least two distinct sites is never assigned to zero cells, because its own
cell contains it. -/
theorem c1_cell_assignment {π ρ : Type} (pred : π → ρ → Bool) (p : π) (regions : List ρ)
    (sites : List Pt) (s : Pt) (hs : s ∈ sites)
    (hd : 2 ≤ (distinctSites sites).length) :
    assign_one pred p regions = assign_one_last pred p regions ∧
    assign_one pIntersects s (voronoi_polygons sites) ≠ Assigned.sentinel := by
  refine ⟨assign_one_eq_last pred p regions, ?_⟩
  have hmem : ({ site := s, sites := distinctSites sites } : VCell) ∈ voronoi_polygons sites := by
    unfold voronoi_polygons
    rw [if_neg (not_lt.mpr hd)]
    exact List.mem_map_of_mem _ ((mem_distinctSites s sites).mpr hs)
  exact assign_one_ne_sentinel pIntersects s _ _ hmem (vContains_own s (distinctSites sites))

/-- Witness for C1 at a concrete scan and a concrete two site tessellation. -/
theorem c1_cell_assignment_witness :
    (((1 : ℚ), (0 : ℚ)) ∈ [((1 : ℚ), (0 : ℚ)), ((3 : ℚ), (0 : ℚ))] ∧
      2 ≤ (distinctSites [((1 : ℚ), (0 : ℚ)), ((3 : ℚ), (0 : ℚ))]).length) ∧
    (assign_one (fun (_ : ℕ) (_ : ℕ) => true) 0 [5]
        = assign_one_last (fun (_ : ℕ) (_ : ℕ) => true) 0 [5] ∧
      assign_one pIntersects ((1 : ℚ), (0 : ℚ))
        (voronoi_polygons [((1 : ℚ), (0 : ℚ)), ((3 : ℚ), (0 : ℚ))]) ≠ Assigned.sentinel) :=
  ⟨⟨by simp, by norm_num [distinctSites, Prod.ext_iff]⟩,
    c1_cell_assignment (fun (_ : ℕ) (_ : ℕ) => true) 0 [5] _ _ (by simp)
      (by norm_num [distinctSites, Prod.ext_iff])⟩

/-- Counterexample to C1 as stated: the point (2, 0) lies on the shared
boundary of the two cells of the sites (1, 0) and (3, 0), hence in both
closed cells; the implemented scan assigns it the second cell of the
iteration order while the first matching cell is the first one, and the two
cells differ — so first match wins is false.  Moreover the generator site
(5, 5) of a single site tessellation is assigned to zero cells, because the
tessellation of fewer than two distinct sites has no cells at all. -/
theorem c1_first_match_counterexample :
    assign_one pIntersects ((2 : ℚ), (0 : ℚ))
        (voronoi_polygons [((1 : ℚ), (0 : ℚ)), ((3 : ℚ), (0 : ℚ))])
      = Assigned.cell
          (⟨((3 : ℚ), (0 : ℚ)), [((1 : ℚ), (0 : ℚ)), ((3 : ℚ), (0 : ℚ))]⟩ : VCell) ∧
    assign_one_spec pIntersects ((2 : ℚ), (0 : ℚ))
        (voronoi_polygons [((1 : ℚ), (0 : ℚ)), ((3 : ℚ), (0 : ℚ))])
      = Assigned.cell
          (⟨((1 : ℚ), (0 : ℚ)), [((1 : ℚ), (0 : ℚ)), ((3 : ℚ), (0 : ℚ))]⟩ : VCell) ∧
    ({ site := ((1 : ℚ), (0 : ℚ)), sites := [((1 : ℚ), (0 : ℚ)), ((3 : ℚ), (0 : ℚ))] } : VCell)
      ≠ { site := ((3 : ℚ), (0 : ℚ)), sites := [((1 : ℚ), (0 : ℚ)), ((3 : ℚ), (0 : ℚ))] } ∧
    assign_one pIntersects ((5 : ℚ), (5 : ℚ)) (voronoi_polygons [((5 : ℚ), (5 : ℚ))])
      = Assigned.sentinel := by
  refine ⟨?_, ?_, ?_, ?_⟩
  · norm_num [assign_one, voronoi_polygons, distinctSites, pIntersects, vContains, sqDist,
      Prod.ext_iff]
  · norm_num [assign_one_spec, voronoi_polygons, distinctSites, pIntersects, vContains,
      sqDist, List.find?, Prod.ext_iff]
  · norm_num [VCell.mk.injEq, Prod.ext_iff]
  · norm_num [assign_one, voronoi_polygons, distinctSites]

/-- C2 (code bug): on an input where some point is contained in no Voronoi
cell — here three coincident points, whose tessellation is empty — the code
does not record a per point AssignmentError and skip the point: the request
aborts unhandled, with the AttributeError of the crs lookup at line 106,
before the assignment scan even runs (and were that line functional, the
integer sentinel of lines 108 and 112 would still be fed to intersection at
line 116 and raise TypeError), and no FeatureCollection is returned. -/
theorem c2_no_cell_aborts_request :
    process_geojson ctxW [{ lon := 1, lat := 2, props := 0 }, { lon := 1, lat := 2, props := 3 },
        { lon := 1, lat := 2, props := 7 }] = Res.error PyErr.attributeError ∧
    PyErr.attributeError ≠ PyErr.assignmentError := by
  refine ⟨?_, by decide⟩
  exact process_geojson_crs ctxW _ (by simp) (by decide)

/-- C3 (amended): an input containing a point with negative target area makes
the request fail fatally with an unhandled TypeError (the radius expression
leaves the reals and the buffer call rejects it) and no output
FeatureCollection is produced; the code defines no InvalidAreaError. -/
theorem c3_negative_area_fatal {α : Type} (ctx : GeoCtx α) (fs : List (Feature α))
    (h : ∃ f ∈ fs, ctx.estArea f.props < 0) :
    process_geojson ctx fs = Res.error PyErr.typeError :=
  process_geojson_neg ctx fs h

/-- Witness for C3 at a concrete single point input with area minus one. -/
theorem c3_negative_area_fatal_witness :
    (∃ f ∈ [({ lon := 0, lat := 0, props := -1 } : Feature ℚ)], ctxW.estArea f.props < 0) ∧
    process_geojson ctxW [{ lon := 0, lat := 0, props := -1 }] = Res.error PyErr.typeError :=
  ⟨⟨{ lon := 0, lat := 0, props := -1 }, by simp, by norm_num [ctxW]⟩,
    c3_negative_area_fatal ctxW _
      ⟨{ lon := 0, lat := 0, props := -1 }, by simp, by norm_num [ctxW]⟩⟩

/-- Counterexample to C3 as stated: a negative area request fails with the
TypeError of the complex radius, which is not an InvalidAreaError — the code
never constructs such an error. -/
theorem c3_error_name_counterexample :
    process_geojson ctxW [{ lon := 6, lat := 7, props := -2 }] = Res.error PyErr.typeError ∧
    PyErr.typeError ≠ PyErr.invalidAreaError := by
  refine ⟨?_, by decide⟩
  norm_num [process_geojson, process_features, process_one, ctxW, feature_pt]

/-- C4 (code bug): the single point request of Scenario A — one point at
(0, 0) with target area 0 — does not produce one circular AllocatedRegion:
the request aborts at line 106 with the AttributeError of the crs lookup
and returns nothing.  Even with that line repaired the scenario could not
succeed, because the tessellation of a single site is the empty collection
per the shapely documentation, so the point would keep the integer sentinel
and line 116 would raise TypeError. -/
theorem c4_single_point_aborts :
    process_geojson ctxW [{ lon := 0, lat := 0, props := 0 }] = Res.error PyErr.attributeError :=
  process_geojson_crs ctxW _ (by simp) (by decide)

/-- C5 (amended): the radius estimator returns exactly
sqrt(areaHectares times 10000 divided by 3.1415) plus extra — the source uses
the literal 3.1415 in place of pi — and for nonnegative areas the radius at
zero equals extra, the radius is monotone in the area, and the radius is at
least extra. -/
theorem c5_radius_formula (ha extra ha2 : ℝ) (h0 : 0 ≤ ha) (h12 : ha ≤ ha2) :
    calculate_circle_radius ha extra = Real.sqrt (ha * 10000 / 3.1415) + extra ∧
    calculate_circle_radius 0 extra = extra ∧
    calculate_circle_radius ha extra ≤ calculate_circle_radius ha2 extra ∧
    extra ≤ calculate_circle_radius ha extra := by
  refine ⟨rfl, ?_, ?_, ?_⟩
  · simp [calculate_circle_radius]
  · unfold calculate_circle_radius
    have h1 : ha * 10000 ≤ ha2 * 10000 := mul_le_mul_of_nonneg_right h12 (by norm_num)
    have h2 : ha * 10000 / 3.1415 ≤ ha2 * 10000 / 3.1415 :=
      (div_le_div_iff_of_pos_right (by norm_num)).mpr h1
    exact add_le_add_right (Real.sqrt_le_sqrt h2) extra
  · unfold calculate_circle_radius
    exact le_add_of_nonneg_left (Real.sqrt_nonneg _)

/-- Witness for C5 at area 0, extra 5, second area 9. -/
theorem c5_radius_formula_witness :
    ((0 : ℝ) ≤ 0 ∧ (0 : ℝ) ≤ 9) ∧
    (calculate_circle_radius 0 5 = Real.sqrt (0 * 10000 / 3.1415) + 5 ∧
      calculate_circle_radius 0 5 = 5 ∧
      calculate_circle_radius 0 5 ≤ calculate_circle_radius 9 5 ∧
      (5 : ℝ) ≤ calculate_circle_radius 0 5) :=
  ⟨⟨le_refl 0, by norm_num⟩, c5_radius_formula 0 5 9 (le_refl 0) (by norm_num)⟩

/-- Counterexample to C5 as stated: at one hectare with extra 5 the value the
source computes differs from the claimed formula with pi, because the source
divides by the literal 3.1415 and 3.1415 is smaller than pi. -/
theorem c5_pi_counterexample :
    calculate_circle_radius 1 5 ≠ Real.sqrt (1 * 10000 / Real.pi) + 5 := by
  have hpi : (3.1415 : ℝ) < Real.pi := by
    have h := Real.pi_gt_d6
    linarith
  have hq : (1 : ℝ) * 10000 / Real.pi < 1 * 10000 / 3.1415 :=
    div_lt_div_of_pos_left (by norm_num) (by norm_num) hpi
  have hs : Real.sqrt (1 * 10000 / Real.pi) < Real.sqrt (1 * 10000 / 3.1415) :=
    Real.sqrt_lt_sqrt (by positivity) hq
  unfold calculate_circle_radius
  intro heq
  linarith

/-- C7 (amended): an empty feature list is rejected with the 400 response of
line 52 before the pipeline runs; a nonempty all coincident input with
nonnegative areas survives process_features and aborts at line 106 with an
unhandled AttributeError, before the sentinel list of line 108 is even
created (an input with a negative area aborts earlier still, with the
TypeError of C3).  Both failures are fatal for the whole request and
produce no partial FeatureCollection, and neither is a
DegenerateInputError, which the code never constructs. -/
theorem c7_degenerate_inputs {α : Type} (ctx : GeoCtx α) (fs : List (Feature α))
    (h1 : fs ≠ []) (hco : ∀ f ∈ fs, ∀ g ∈ fs, feature_pt f = feature_pt g)
    (hpos : ∀ f ∈ fs, 0 ≤ ctx.estArea f.props) :
    process_geojson ctx ([] : List (Feature α))
        = Res.error (PyErr.badRequest "No features found in the GeoJSON file") ∧
    process_geojson ctx fs = Res.error PyErr.attributeError :=
  ⟨by simp [process_geojson], process_geojson_crs ctx fs h1 hpos⟩

/-- Witness for C7 at a concrete pair of coincident points. -/
theorem c7_degenerate_inputs_witness :
    (([{ lon := 8, lat := 9, props := 1 }, { lon := 8, lat := 9, props := 2 }]
        : List (Feature ℚ)) ≠ [] ∧
      (∀ f ∈ ([{ lon := 8, lat := 9, props := 1 }, { lon := 8, lat := 9, props := 2 }]
          : List (Feature ℚ)),
        ∀ g ∈ ([{ lon := 8, lat := 9, props := 1 }, { lon := 8, lat := 9, props := 2 }]
          : List (Feature ℚ)), feature_pt f = feature_pt g) ∧
      (∀ f ∈ ([{ lon := 8, lat := 9, props := 1 }, { lon := 8, lat := 9, props := 2 }]
          : List (Feature ℚ)), 0 ≤ ctxW.estArea f.props)) ∧
    (process_geojson ctxW ([] : List (Feature ℚ))
        = Res.error (PyErr.badRequest "No features found in the GeoJSON file") ∧
      process_geojson ctxW [{ lon := 8, lat := 9, props := 1 }, { lon := 8, lat := 9, props := 2 }]
        = Res.error PyErr.attributeError) :=
  ⟨⟨by simp, by decide, by decide⟩,
    c7_degenerate_inputs ctxW _ (by simp) (by decide) (by decide)⟩

/-- Counterexample to C7 as stated: a coincident pair with valid areas fails
with the AttributeError of line 106, not with a DegenerateInputError. -/
theorem c7_error_name_counterexample :
    process_geojson ctxW [{ lon := 3, lat := 4, props := 0 }, { lon := 3, lat := 4, props := 0 }]
      = Res.error PyErr.attributeError ∧
    PyErr.attributeError ≠ PyErr.degenerateInputError := by
  refine ⟨?_, by decide⟩
  exact process_geojson_crs ctxW _ (by simp) (by decide)

/-- C8 (code bug): the output set invariant cannot be exhibited because the
program never produces an output set at all: even the well formed two point
request fsW aborts at line 106 with the AttributeError of the crs lookup
and returns no FeatureCollection, so the filtering loop of lines 114 to 123
that would realise the claimed invariant is dead code. -/
theorem c8_output_never_produced :
    process_geojson ctxW fsW = Res.error PyErr.attributeError :=
  process_geojson_crs ctxW fsW (by simp [fsW]) (by decide)

/-- C9 (code bug): no output feature is ever emitted whose properties could
be compared with its input feature: this well formed two point request
aborts at line 106 with AttributeError, so the verbatim copy of properties
at line 122 is dead code. -/
theorem c9_props_never_emitted :
    process_geojson ctxW [{ lon := 0, lat := 0, props := 1 }, { lon := 4, lat := 0, props := 2 }]
      = Res.error PyErr.attributeError :=
  process_geojson_crs ctxW _ (by simp) (by decide)

/-- C10 (code bug): there is never an output FeatureCollection whose order
could be compared with the input order: this well formed three point
request aborts at line 106 with AttributeError, so the in order output loop
of lines 114 to 123 is dead code. -/
theorem c10_no_output_to_order :
    process_geojson ctxW [{ lon := 0, lat := 0, props := 0 }, { lon := 2, lat := 0, props := 0 },
        { lon := 10, lat := 0, props := 0 }] = Res.error PyErr.attributeError :=
  process_geojson_crs ctxW _ (by simp) (by decide)

end VoronoiApp
